import Mathlib

/-!
Verification of the object-store synchronization and lifecycle engine of
the CS-ScreenRecorder repository.

The development shallowly embeds the transfer/resolution core of the two
Python scripts `scripts/bucket-manager.py` and `scripts/sync-clients.py`:

* endpoint client construction (protocol inference, endpoint URL shaping),
* paginated object listing (`list_objects`),
* per-object copying with partial-failure accounting (`copy_object`,
  the copy loop of `cmd_copy`),
* batched bucket deletion (the delete loop of `cmd_delete`),
* release-asset resolution from structured GitHub assets and from
  unstructured release-note text (`find_matching_asset`,
  `parse_crabnebula_downloads` with its three link-extraction patterns
  and the `CRABNEBULA_MAPPINGS` table),
* the download/upload transfer loop with temporary-file and
  temporary-directory cleanup, and the best-effort `version.txt` marker.

Network and filesystem effects are made explicit: fallible remote calls
become function parameters returning result values, and effectful runs
become event traces over inductive event types.
-/

/-! ## Generic string helpers (Python `in`, `str.startswith`, `str.strip`) -/

/-- Boolean test that `pre` is a prefix of `s`, elementwise on characters.
Embeds Python `str.startswith`. -/
def listStarts : List Char → List Char → Bool
  | [], _ => true
  | _ :: _, [] => false
  | p :: ps, c :: cs => (p == c) && listStarts ps cs

/-- Embeds Python `needle in hay` substring membership on strings. -/
def strContains (hay needle : String) : Bool :=
  (List.range (hay.data.length + 1)).any (fun i => listStarts needle.data (hay.data.drop i))

/-- Embeds Python `s.startswith(pre)`. -/
def strStarts (s pre : String) : Bool := listStarts pre.data s.data

/-- Characters that Python `str.strip()` and the regex class `\s` treat as whitespace. -/
def isPySpace (c : Char) : Bool :=
  c == ' ' || c == '\t' || c == '\n' || c == '\r' || c == '\x0b' || c == '\x0c'

/-- Embeds Python `s.strip()`. -/
def pyStrip (s : String) : String :=
  ⟨((s.data.dropWhile isPySpace).reverse.dropWhile isPySpace).reverse⟩

/-! ## Endpoint client factory

`get_s3_client` in both scripts decides the transport protocol from the
shape of the configured endpoint address (`bucket-manager.py` lines
101-111, `sync-clients.py` lines 125-133), and `bucket-manager.py`
additionally keeps an address verbatim when it already carries a scheme
(lines 107-111). -/

/-- Embeds the protocol test shared by both scripts:
`localhost in endpoint or 127.0.0.1 in endpoint or :9000 in endpoint`
(substring tests on string literals). -/
def hasLocalTrigger (endpoint : String) : Bool :=
  strContains endpoint "localhost" || strContains endpoint "127.0.0.1" ||
    strContains endpoint ":9000"

/-- Embeds `protocol = http if <trigger> else https` from both scripts. -/
def protocolFor (endpoint : String) : String :=
  if hasLocalTrigger endpoint then "http" else "https"

/-- Embeds the endpoint URL construction of `bucket-manager.py::get_s3_client`:
the inferred protocol is prepended only when the address does not already
start with `http`; otherwise the address is used verbatim. -/
def bm_endpoint_url (endpoint : String) : String :=
  if !(strStarts endpoint "http") then protocolFor endpoint ++ "://" ++ endpoint
  else endpoint

/-- Embeds the endpoint URL construction of `sync-clients.py::get_s3_client`:
`endpoint_url = f"{protocol}://{endpoint}"`, unconditionally. -/
def sc_endpoint_url (endpoint : String) : String :=
  protocolFor endpoint ++ "://" ++ endpoint

/-- Observation function: the transport scheme a URL string selects. -/
def urlScheme (url : String) : String :=
  if strStarts url "https://" then "https"
  else if strStarts url "http://" then "http"
  else ""

theorem urlScheme_proto_http (e : String) : urlScheme ("http://" ++ e) = "http" := by
  obtain ⟨d⟩ := e
  rfl

theorem urlScheme_proto_https (e : String) : urlScheme ("https://" ++ e) = "https" := by
  obtain ⟨d⟩ := e
  rfl

/-! ## Object lister (`bucket-manager.py::list_objects`, lines 123-136)

The paginator is modelled by its outcome: either the sequence of pages it
yields (the `Contents` list of each page, an absent key being the empty list),
or the `ClientError` it raises while iterating (for instance when the
bucket does not exist). -/

/-- Record of one listed object (`Key`, `Size` of a `Contents` entry). -/
structure S3Object where
  key : String
  size : Nat
deriving DecidableEq, Repr

/-- Outcome of `paginator.paginate(Bucket=bucket)` when iterated. -/
inductive PaginateResult where
  | pages (ps : List (List S3Object))
  | clientError (msg : String)
deriving DecidableEq, Repr

/-- Embeds `list_objects`: pages are accumulated with `objects.extend`;
a `ClientError` is caught, printed, and the function returns `[]`. -/
def list_objects (r : PaginateResult) : List S3Object :=
  match r with
  | .pages ps => ps.foldl (fun acc page => acc ++ page) []
  | .clientError _ => []

theorem list_objects_pages_eq_flatten (ps : List (List S3Object)) :
    list_objects (.pages ps) = ps.flatten := by
  show ps.foldl (fun acc page => acc ++ page) [] = ps.flatten
  suffices h : ∀ acc : List S3Object, ps.foldl (fun acc page => acc ++ page) acc = acc ++ ps.flatten by
    simpa using h []
  induction ps with
  | nil => intro acc; simp
  | cons p ps ih => intro acc; simp [List.foldl, ih]

/-! ## Object copier (`bucket-manager.py::copy_object` lines 139-157 and
the copy loop of `cmd_copy`, lines 229-262)

The two remote calls inside `copy_object` are passed in as functions:
`get` models `source_client.get_object` (returning a body and an optional
`ContentType`, or raising `ClientError`), `put` models
`target_client.put_object` (keyed by key, body and content type). -/

/-- Outcome of `get_object`. -/
inductive GetResult where
  | ok (body : String) (contentType : Option String)
  | clientError (msg : String)
deriving DecidableEq, Repr

/-- Outcome of `put_object` / `delete_objects`-style calls. -/
inductive PutResult where
  | ok
  | clientError (msg : String)
deriving DecidableEq, Repr

/-- Embeds `copy_object`: download the body and content type (defaulting to
`application/octet-stream`), upload under the identical key; any
`ClientError` in either call is caught and reported as `false`. -/
def copy_object (get : String → GetResult) (put : String → String → String → PutResult)
    (key : String) : Bool :=
  match get key with
  | .clientError _ => false
  | .ok body ct =>
    match put key body (ct.getD "application/octet-stream") with
    | .clientError _ => false
    | .ok => true

/-- Accumulated state of the copy loop of `cmd_copy`: the success and
failure counters and, as the observable progress trace, the keys attempted
in order. -/
structure CopyRun where
  success_count : Nat
  failed_count : Nat
  attempted : List String
deriving DecidableEq, Repr

/-- One iteration of the `for obj in objects` loop of `cmd_copy`
(lines 243-252): the object is attempted via `copy_object` and the
matching counter is incremented. -/
def copyStep (get : String → GetResult) (put : String → String → String → PutResult)
    (run : CopyRun) (obj : S3Object) : CopyRun :=
  if copy_object get put obj.key then
    { run with success_count := run.success_count + 1,
               attempted := run.attempted ++ [obj.key] }
  else
    { run with failed_count := run.failed_count + 1,
               attempted := run.attempted ++ [obj.key] }

/-- Embeds the whole copy loop of `cmd_copy`: every listed object is
attempted in listing order; a failure does not stop the loop. -/
def cmd_copy_loop (get : String → GetResult) (put : String → String → String → PutResult)
    (objects : List S3Object) : CopyRun :=
  objects.foldl (copyStep get put) ⟨0, 0, []⟩

/-- Embeds the exit status of `cmd_copy` (line 262):
`return 0 if failed_count == 0 else 1`. -/
def cmd_copy_result (run : CopyRun) : Nat :=
  if run.failed_count = 0 then 0 else 1

/-! ## Batch deleter (the delete loop of `bucket-manager.py::cmd_delete`,
lines 298-335)

The loop `for i in range(0, len(objects), 1000): batch = objects[i:i+1000]`
is embedded as successive take/drop chunking. Each `delete_objects` call
may raise `ClientError`; the exception is caught, printed, and the loop
continues, so the per-batch outcome is a parameter `batchOk`. After the
loop, `delete_bucket` is called unconditionally. -/

/-- Chunking loop with explicit fuel; `deleteBatches` supplies fuel equal
to the list length, which is enough since every step consumes at least one
element of a nonempty list. -/
def deleteBatchesAux : Nat → List S3Object → List (List S3Object)
  | _, [] => []
  | 0, _ :: _ => []
  | fuel + 1, x :: xs => (x :: xs).take 1000 :: deleteBatchesAux fuel ((x :: xs).drop 1000)

/-- Embeds the batching of the delete loop: the successive slices
`objects[i:i+1000]`. -/
def deleteBatches (objects : List S3Object) : List (List S3Object) :=
  deleteBatchesAux objects.length objects

/-- The sizes of the successive slices of a list of length `n`, with fuel. -/
def batchSizes : Nat → Nat → List Nat
  | _, 0 => []
  | 0, _ + 1 => []
  | fuel + 1, n + 1 => min 1000 (n + 1) :: batchSizes fuel (n + 1 - 1000)

theorem deleteBatchesAux_sizes (fuel : Nat) :
    ∀ l : List S3Object, (deleteBatchesAux fuel l).map List.length = batchSizes fuel l.length := by
  induction fuel with
  | zero =>
    intro l
    cases l with
    | nil => rfl
    | cons x xs => rfl
  | succ fuel ih =>
    intro l
    cases l with
    | nil => rfl
    | cons x xs =>
      show ((x :: xs).take 1000).length :: (deleteBatchesAux fuel ((x :: xs).drop 1000)).map List.length
          = batchSizes (fuel + 1) (x :: xs).length
      rw [ih ((x :: xs).drop 1000)]
      simp only [batchSizes, List.length_take, List.length_drop, List.length_cons]

theorem deleteBatchesAux_le_1000 (fuel : Nat) :
    ∀ l : List S3Object, ∀ b ∈ deleteBatchesAux fuel l, b.length ≤ 1000 := by
  induction fuel with
  | zero =>
    intro l b hb
    cases l with
    | nil => simp [deleteBatchesAux] at hb
    | cons x xs => simp [deleteBatchesAux] at hb
  | succ fuel ih =>
    intro l b hb
    cases l with
    | nil => simp [deleteBatchesAux] at hb
    | cons x xs =>
      simp only [deleteBatchesAux, List.mem_cons] at hb
      rcases hb with h | h
      · subst h
        simp only [List.length_take]
        exact Nat.min_le_left 1000 (x :: xs).length
      · exact ih _ b h

theorem deleteBatchesAux_flatten (fuel : Nat) :
    ∀ l : List S3Object, l.length ≤ fuel → (deleteBatchesAux fuel l).flatten = l := by
  induction fuel with
  | zero =>
    intro l hl
    cases l with
    | nil => rfl
    | cons x xs => simp at hl
  | succ fuel ih =>
    intro l hl
    cases l with
    | nil => rfl
    | cons x xs =>
      show ((x :: xs).take 1000) ++ (deleteBatchesAux fuel ((x :: xs).drop 1000)).flatten = x :: xs
      rw [ih ((x :: xs).drop 1000)]
      · exact List.take_append_drop 1000 (x :: xs)
      · simp only [List.length_drop]
        omega

theorem deleteBatches_le_1000 (objects : List S3Object) :
    ∀ b ∈ deleteBatches objects, b.length ≤ 1000 :=
  deleteBatchesAux_le_1000 objects.length objects

theorem deleteBatches_flatten (objects : List S3Object) :
    (deleteBatches objects).flatten = objects :=
  deleteBatchesAux_flatten objects.length objects (Nat.le_refl _)

theorem deleteBatches_sizes (objects : List S3Object) :
    (deleteBatches objects).map List.length = batchSizes objects.length objects.length :=
  deleteBatchesAux_sizes objects.length objects

/-- Events of a `cmd_delete` run: the issued `delete_objects` calls (with
the keys of the batch and whether the call succeeded) and the final
`delete_bucket` call. -/
inductive DeleteEvent where
  | deleteObjectsCall (keys : List String) (ok : Bool)
  | deleteBucketCall
deriving DecidableEq, Repr

/-- The request part of an event, disregarding the outcome. -/
def deleteEventKeys : DeleteEvent → Option (List String)
  | .deleteObjectsCall ks _ => some ks
  | .deleteBucketCall => none

/-- Embeds the observable call sequence of `cmd_delete` (lines 298-335):
one `delete_objects` call per 1000-bounded batch — a `ClientError` on a
batch (`batchOk i = false`) is caught and the loop continues — followed by
the unconditional `delete_bucket` call. -/
def cmd_delete_events (objects : List S3Object) (batchOk : Nat → Bool) : List DeleteEvent :=
  ((deleteBatches objects).enum.map
      (fun p => DeleteEvent.deleteObjectsCall (p.2.map S3Object.key) (batchOk p.1)))
    ++ [DeleteEvent.deleteBucketCall]

/-! ## Release resolver data (`sync-clients.py` lines 62-99)

`GITHUB_ASSET_MAPPINGS` is the ordered table used by the structured-asset
strategy (substring patterns over asset names); `CRABNEBULA_MAPPINGS` is
the ordered table used by the unstructured strategy. The regular
expressions of the latter all have the shape `A` or `A.*B` for literals
`A`, `B`, searched case-insensitively; they are embedded as `RePat`. -/

/-- A GitHub release asset (`name`, `browser_download_url`, `size`). -/
structure GithubAsset where
  name : String
  browser_download_url : String
  size : Nat
deriving DecidableEq, Repr

/-- Target bucket of `sync-clients.py` (line 62). -/
def BUCKET_NAME : String := "clients"

/-- Embeds `GITHUB_ASSET_MAPPINGS` (lines 70-85):
`(pattern_in_name, target_filename, content_type)` in table order. -/
def GITHUB_ASSET_MAPPINGS : List (String × String × String) :=
  [ ("_x64-setup.exe", "cap-windows-x64.exe", "application/octet-stream"),
    ("_x64_en-US.msi", "cap-windows-x64.msi", "application/octet-stream"),
    ("_arm64-setup.exe", "cap-windows-arm64.exe", "application/octet-stream"),
    ("_universal.dmg", "cap-macos-universal.dmg", "application/octet-stream"),
    ("_x64.dmg", "cap-macos-x64.dmg", "application/octet-stream"),
    ("_aarch64.dmg", "cap-macos-arm64.dmg", "application/octet-stream"),
    ("_amd64.AppImage", "cap-linux-x64.AppImage", "application/octet-stream"),
    ("_amd64.deb", "cap-linux-x64.deb", "application/vnd.debian.binary-package"),
    ("_x86_64.rpm", "cap-linux-x64.rpm", "application/x-rpm") ]

/-- Shape of the platform regular expressions of `CRABNEBULA_MAPPINGS`:
either a single literal, or two literals separated by `.*`. -/
inductive RePat where
  | lit (a : String)
  | dotStar (a b : String)
deriving DecidableEq, Repr

/-- Case-insensitive `re.search` of a plain literal: the lowercased
needle occurs somewhere in the lowercased text. -/
def searchLit (a : String) (s : String) : Bool :=
  let al := a.data.map Char.toLower
  let sl := s.data.map Char.toLower
  (List.range (sl.length + 1)).any (fun i => listStarts al (sl.drop i))

/-- Case-insensitive `re.search` of `A.*B`: an occurrence of `A` is
followed by an occurrence of `B`, and the gap matched by `.*` contains no
newline (`.` does not match a line break). -/
def searchDotStar (a b : String) (s : String) : Bool :=
  let al := a.data.map Char.toLower
  let bl := b.data.map Char.toLower
  let sl := s.data.map Char.toLower
  (List.range (sl.length + 1)).any (fun i =>
    listStarts al (sl.drop i) &&
    (List.range (sl.length + 1)).any (fun j =>
      decide (i + al.length ≤ j) && listStarts bl (sl.drop j) &&
      !(((sl.drop (i + al.length)).take (j - (i + al.length))).contains '\n')))

/-- Embeds `re.search(pattern, text, re.IGNORECASE)` for the pattern
shapes appearing in `CRABNEBULA_MAPPINGS`. -/
def reSearch (p : RePat) (s : String) : Bool :=
  match p with
  | .lit a => searchLit a s
  | .dotStar a b => searchDotStar a b s

/-- Embeds `CRABNEBULA_MAPPINGS` (lines 91-99):
`(pattern, target_filename, content_type, file_extension)` in table order. -/
def CRABNEBULA_MAPPINGS : List (RePat × String × String × String) :=
  [ (RePat.dotStar "macOS" "Apple Silicon", "cap-macos-arm64.dmg", "application/octet-stream", ".dmg"),
    (RePat.dotStar "macOS" "Intel", "cap-macos-x64.dmg", "application/octet-stream", ".dmg"),
    (RePat.lit "Windows", "cap-windows-x64.exe", "application/octet-stream", ".exe"),
    (RePat.dotStar "Linux" "AppImage", "cap-linux-x64.AppImage", "application/octet-stream", ".AppImage"),
    (RePat.dotStar "Linux" "deb", "cap-linux-x64.deb", "application/vnd.debian.binary-package", ".deb") ]

/-- Embeds `find_matching_asset` (lines 166-171): the first asset whose
name contains the substring `pattern`, if any. -/
def find_matching_asset (assets : List GithubAsset) (pattern : String) : Option GithubAsset :=
  assets.find? (fun asset => strContains asset.name pattern)

/-- Embeds the structured-asset resolution loop of `main` (lines 347-357):
for each mapping entry, in table order, the matching asset slot. -/
def githubResolve (assets : List GithubAsset) : List (String × String × Option GithubAsset) :=
  GITHUB_ASSET_MAPPINGS.map (fun m => (m.2.1, m.2.2, find_matching_asset assets m.1))

/-! ## Unstructured-text strategy (`parse_crabnebula_downloads`, lines 174-214)

The three `re.findall` patterns of lines 187-194 are embedded as
deterministic matchers. In each of them every repeated class excludes the
character that must follow it (or excludes the characters the next literal
starts with), so the greedy match is the unique one and no backtracking is
required. Scanning is left to right and non-overlapping, as `re.findall`
does. -/

/-- The literal URL prefix `https://cdn.crabnebula.app/` of the three
patterns. -/
def CDN : List Char := "https://cdn.crabnebula.app/".data

/-- Case-insensitive prefix test used for the `https://cdn.crabnebula.app/`
literal under `re.IGNORECASE`. -/
def ciStarts : List Char → List Char → Bool
  | [], _ => true
  | _ :: _, [] => false
  | p :: ps, c :: cs => (p.toLower == c.toLower) && ciStarts ps cs

/-- Matcher for the markdown-link pattern
`\[([^\]]+)\]\((https://cdn\.crabnebula\.app/[^)]+)\)` at the head of the
input; on success returns (label group, URL group, rest of the input). -/
def matchMdLink : List Char → Option (String × String × List Char)
  | '[' :: rest =>
    let text := rest.takeWhile (· != ']')
    let rest1 := rest.dropWhile (· != ']')
    if text.isEmpty then none else
    match rest1 with
    | ']' :: '(' :: rest2 =>
      if ciStarts CDN rest2 then
        let afterCdn := rest2.drop CDN.length
        let urlTail := afterCdn.takeWhile (· != ')')
        let rest3 := afterCdn.dropWhile (· != ')')
        if urlTail.isEmpty then none else
        match rest3 with
        | ')' :: rem => some (⟨text⟩, ⟨rest2.take CDN.length ++ urlTail⟩, rem)
        | _ => none
      else none
    | _ => none
  | _ => none

/-- Matcher for the bold-label pattern
`\*\*([^*]+)\*\*[:\s]+(https://cdn\.crabnebula\.app/\S+)` at the head of
the input. -/
def matchBoldLink : List Char → Option (String × String × List Char)
  | '*' :: '*' :: rest =>
    let text := rest.takeWhile (· != '*')
    let rest1 := rest.dropWhile (· != '*')
    if text.isEmpty then none else
    match rest1 with
    | '*' :: '*' :: rest2 =>
      let sep := rest2.takeWhile (fun c => c == ':' || isPySpace c)
      let rest3 := rest2.dropWhile (fun c => c == ':' || isPySpace c)
      if sep.isEmpty then none else
      if ciStarts CDN rest3 then
        let afterCdn := rest3.drop CDN.length
        let urlTail := afterCdn.takeWhile (fun c => !isPySpace c)
        if urlTail.isEmpty then none else
        some (⟨text⟩, ⟨rest3.take CDN.length ++ urlTail⟩, afterCdn.drop urlTail.length)
      else none
    | _ => none
  | _ => none

/-- Matcher for the bulleted-label pattern
`-\s*([^:]+):\s*(https://cdn\.crabnebula\.app/\S+)` at the head of the
input. The greedy `\s*` must leave at least one character to the
following `[^:]+`, hence the all-whitespace fallback. -/
def matchDashLink : List Char → Option (String × String × List Char)
  | '-' :: rest =>
    let t := rest.takeWhile (· != ':')
    let rest1 := rest.dropWhile (· != ':')
    if t.isEmpty then none else
    match rest1 with
    | ':' :: rest2 =>
      let td := t.dropWhile isPySpace
      let text := if td.isEmpty then t.drop (t.length - 1) else td
      let rest3 := rest2.dropWhile isPySpace
      if ciStarts CDN rest3 then
        let afterCdn := rest3.drop CDN.length
        let urlTail := afterCdn.takeWhile (fun c => !isPySpace c)
        if urlTail.isEmpty then none else
        some (⟨text⟩, ⟨rest3.take CDN.length ++ urlTail⟩, afterCdn.drop urlTail.length)
      else none
    | _ => none
  | _ => none

/-- Left-to-right, non-overlapping scan with one of the matchers, the way
`re.findall` walks the subject string. Fuel bounds the number of steps; it
is instantiated with the length of the subject, which suffices because
every step consumes at least one character. -/
def scanAux (m : List Char → Option (String × String × List Char)) :
    Nat → List Char → List (String × String)
  | 0, _ => []
  | _, [] => []
  | fuel + 1, c :: rest =>
    match m (c :: rest) with
    | some (t, u, rem) => (t, u) :: scanAux m fuel rem
    | none => scanAux m fuel rest

/-- All matches of the markdown-link pattern in `body`. -/
def findallMdLink (body : List Char) : List (String × String) :=
  scanAux matchMdLink body.length body

/-- All matches of the bold-label pattern in `body`. -/
def findallBoldLink (body : List Char) : List (String × String) :=
  scanAux matchBoldLink body.length body

/-- All matches of the bulleted-label pattern in `body`. -/
def findallDashLink (body : List Char) : List (String × String) :=
  scanAux matchDashLink body.length body

/-- Embeds the `found_urls` dictionary fill of lines 196-202: URLs are
deduplicated in first-seen order across the three patterns, keeping the
stripped label of the first occurrence. Entries are `(url, label)`. -/
def insertFoundURL (acc : List (String × String)) (tu : String × String) :
    List (String × String) :=
  if acc.any (fun p => p.1 == tu.2) then acc else acc ++ [(tu.2, pyStrip tu.1)]

/-- The `(url, platform_text)` pairs collected from a release body, in
dictionary insertion order. -/
def found_urls (body : String) : List (String × String) :=
  (findallMdLink body.data ++ findallBoldLink body.data ++ findallDashLink body.data).foldl
    insertFoundURL []

/-- Embeds `parse_crabnebula_downloads` (lines 174-214): an empty body
yields no downloads; otherwise each collected `(url, platform_text)` pair
is matched against `CRABNEBULA_MAPPINGS` in table order, the first match
assigning the canonical filename and content type, and pairs matching no
pattern are dropped with a warning. Entries are
`(platform_text, url, target_filename, content_type)`. -/
def parse_crabnebula_downloads (release_body : String) :
    List (String × String × String × String) :=
  if release_body = "" then []
  else
    (found_urls release_body).filterMap (fun p =>
      match CRABNEBULA_MAPPINGS.find? (fun m => reSearch m.1 p.2) with
      | some m => some (p.2, p.1, m.2.1, m.2.2.1)
      | none => none)

/-! ## Discovery-strategy selection (`main`, lines 301-311 and 346-405)

`main` parses the release body only in the `else` branch of
`if github_assets:`; the transfer phase then dispatches on
`if github_assets: ... elif crabnebula_downloads: ...`. -/

/-- Embeds the value of the `crabnebula_downloads` variable after lines
301-311: it stays `[]` whenever the structured asset list is non-empty. -/
def crabnebula_downloads_for (github_assets : List GithubAsset) (release_body : String) :
    List (String × String × String × String) :=
  if github_assets.isEmpty then parse_crabnebula_downloads release_body else []

/-- The discovery strategy a resolution run ends up using. -/
inductive Strategy where
  | structured
  | unstructured
  | noDownloads
deriving DecidableEq, Repr

/-- Embeds the dispatch of the transfer phase
(`if github_assets: ... elif crabnebula_downloads: ...`). -/
def chosenStrategy (github_assets : List GithubAsset) (release_body : String) : Strategy :=
  if !github_assets.isEmpty then .structured
  else if !(crabnebula_downloads_for github_assets release_body).isEmpty then .unstructured
  else .noDownloads

/-! ## Transfer pipeline cleanup (`main`, lines 327-409)

The per-asset body of both transfer branches is: download to
`temp_dir / target_name` (on failure, record the outcome and `continue`),
then upload, record the outcome, and `local_file.unlink(missing_ok=True)`.
`upload_to_s3` catches only `ClientError`; any other exception propagates
out of the loop. The whole loop sits in a `try` whose `finally` runs
`shutil.rmtree(temp_dir, ignore_errors=True)`. -/

/-- Per-asset outcome of the transfer loop body. `uploadRaised` is an
exception other than `ClientError` escaping the upload. -/
inductive AssetOutcome where
  | downloadFailed
  | uploadOk
  | uploadFailed
  | uploadRaised
deriving DecidableEq, Repr

/-- Observable filesystem/network events of the transfer pipeline. -/
inductive Ev where
  | download (file : String) (ok : Bool)
  | upload (file : String)
  | unlink (file : String)
  | rmtreeTempDir
deriving DecidableEq, Repr

/-- Embeds the per-asset loop of `main` (lines 347-405, both branches):
a failed download records the failure and continues with the next asset
without unlinking; a completed upload attempt (success or caught
`ClientError`) is followed immediately by `unlink`; an exception escaping
the upload aborts the loop. -/
def transferLoop : List (String × AssetOutcome) → List Ev
  | [] => []
  | (f, AssetOutcome.downloadFailed) :: rest => Ev.download f false :: transferLoop rest
  | (f, AssetOutcome.uploadOk) :: rest =>
      Ev.download f true :: Ev.upload f :: Ev.unlink f :: transferLoop rest
  | (f, AssetOutcome.uploadFailed) :: rest =>
      Ev.download f true :: Ev.upload f :: Ev.unlink f :: transferLoop rest
  | (f, AssetOutcome.uploadRaised) :: _ => [Ev.download f true, Ev.upload f]

/-- Embeds the `try ... finally: shutil.rmtree(temp_dir, ...)` of lines
335-409: whatever the loop does, the temporary directory is removed at
pipeline exit. -/
def pipelineEvents (assets : List (String × AssetOutcome)) : List Ev :=
  transferLoop assets ++ [Ev.rmtreeTempDir]

/-! ## Version marker and final summary (`main`, lines 411-447) -/

/-- A `put_object` request, as issued for the version marker. -/
structure VersionPut where
  bucket : String
  key : String
  body : String
  contentType : String
deriving DecidableEq, Repr

/-- Outcome of the version-marker `put_object` call. -/
inductive PutOutcome where
  | ok
  | raised (msg : String)
deriving DecidableEq, Repr

/-- Embeds lines 423-430: the marker object written to the bucket, with
`version_info = f"{release_tag}\n"`. -/
def versionPutFor (release_tag : String) : VersionPut :=
  { bucket := BUCKET_NAME, key := "version.txt",
    body := release_tag ++ "\n", contentType := "text/plain" }

/-- What `main` reports after the transfer loop: the summary-table rows,
whether the version marker was written, the success and total counters of
the final panel, and whether `main` ran to completion. -/
structure SyncReport where
  rows : List (String × String)
  versionWritten : Bool
  success_count : Nat
  total_count : Nat
  completed : Bool
deriving DecidableEq, Repr

/-- Embeds the tail of `main` (lines 411-447): the summary table is built
from `results`; the version write is attempted inside
`try ... except Exception: pass`, so a raised put is swallowed; the final
counters are computed from `results` alone and `main` completes either
way. `results` entries are `(target_name, status, color)`. -/
def finishSync (results : List (String × String × String)) (release_tag : String)
    (put : VersionPut → PutOutcome) : SyncReport :=
  let written := match put (versionPutFor release_tag) with
    | .ok => true
    | .raised _ => false
  { rows := results.map (fun r => (r.1, r.2.1)),
    versionWritten := written,
    success_count := (results.filter (fun r => r.2.2 == "green")).length,
    total_count := if results.isEmpty then GITHUB_ASSET_MAPPINGS.length else results.length,
    completed := true }

/-! ## Helper lemmas -/

theorem filter_length_split {α : Type} (p : α → Bool) (l : List α) :
    (l.filter p).length + (l.filter (fun a => !p a)).length = l.length := by
  induction l with
  | nil => rfl
  | cons a l ih =>
    cases h : p a <;> simp [List.filter_cons, h] <;> omega

theorem copy_foldl_spec (get : String → GetResult) (put : String → String → String → PutResult) :
    ∀ (objects : List S3Object) (init : CopyRun),
      objects.foldl (copyStep get put) init =
        { success_count :=
            init.success_count + (objects.filter (fun o => copy_object get put o.key)).length,
          failed_count :=
            init.failed_count + (objects.filter (fun o => !copy_object get put o.key)).length,
          attempted := init.attempted ++ objects.map S3Object.key } := by
  intro objects
  induction objects with
  | nil => intro init; simp
  | cons o rest ih =>
    intro init
    rw [List.foldl_cons, ih]
    cases hc : copy_object get put o.key with
    | true =>
      simp [copyStep, hc, List.filter_cons, CopyRun.mk.injEq]
      omega
    | false =>
      simp [copyStep, hc, List.filter_cons, CopyRun.mk.injEq]
      omega

/-- If some element at index `i` satisfies `p`, then `find?` returns the
element at the least such index, which is at most `i`. -/
theorem find?_min_index {α : Type} (p : α → Bool) :
    ∀ (l : List α) (i : Nat) (hi : i < l.length), p (l.get ⟨i, hi⟩) = true →
      ∃ k, ∃ hk : k < l.length, k ≤ i ∧ p (l.get ⟨k, hk⟩) = true ∧
        l.find? p = some (l.get ⟨k, hk⟩) := by
  intro l
  induction l with
  | nil => intro i hi; exact absurd hi (by simp)
  | cons a l ih =>
    intro i hi hp
    cases ha : p a with
    | true =>
      exact ⟨0, by simp, Nat.zero_le _, ha, by simp [List.find?, ha]⟩
    | false =>
      cases i with
      | zero =>
        rw [List.get] at hp
        rw [ha] at hp
        exact Bool.noConfusion hp
      | succ i =>
        have hi2 : i < l.length := Nat.lt_of_succ_lt_succ hi
        have hp2 : p (l.get ⟨i, hi2⟩) = true := hp
        obtain ⟨k, hk, hki, hpk, hfind⟩ := ih i hi2 hp2
        exact ⟨k + 1, Nat.succ_lt_succ hk, Nat.succ_le_succ hki, hpk,
          by simp [List.find?, ha, hfind]⟩

/-- In the transfer loop, an `unlink` of the same file follows every
`upload` immediately, except when the upload raised, in which case the
loop ends there. -/
theorem transferLoop_upload_next (assets : List (String × AssetOutcome)) :
    ∀ (k : Nat) (f : String),
      (transferLoop assets).get? k = some (Ev.upload f) →
      (transferLoop assets).get? (k + 1) = some (Ev.unlink f) ∨
      (transferLoop assets).get? (k + 1) = none := by
  induction assets with
  | nil => intro k f h; simp [transferLoop] at h
  | cons a rest ih =>
    obtain ⟨f0, o⟩ := a
    cases o with
    | downloadFailed =>
      intro k f h
      cases k with
      | zero => exact absurd h (by simp [transferLoop])
      | succ k => exact ih k f h
    | uploadOk =>
      intro k f h
      match k, h with
      | 1, h =>
        left
        have : f = f0 := by
          have := Option.some.inj h
          exact (Ev.upload.inj this).symm
        subst this
        rfl
      | (n + 3), h => exact ih n f h
    | uploadFailed =>
      intro k f h
      match k, h with
      | 1, h =>
        left
        have : f = f0 := by
          have := Option.some.inj h
          exact (Ev.upload.inj this).symm
        subst this
        rfl
      | (n + 3), h => exact ih n f h
    | uploadRaised =>
      intro k f h
      match k, h with
      | 1, _ => right; rfl

/-! ## Claim theorems -/

/-- C5, counterexample: a `ClientError` while listing (for instance a
missing bucket) makes `list_objects` return `[]`, the very value an
existing empty bucket yields, so the two outcomes are not distinguishable
from the return value and no error reaches the caller. -/
theorem c5_counterexample :
    list_objects (PaginateResult.clientError "NoSuchBucket") = [] ∧
    list_objects (PaginateResult.clientError "NoSuchBucket")
      = list_objects (PaginateResult.pages [[]]) := by
  decide

/-- C5, amended: `list_objects` swallows the `ClientError` of a missing
bucket and returns `[]`, and an existing bucket yields the concatenation
of its pages (so an empty bucket also yields `[]`); neither outcome raises
and the return values coincide. -/
theorem c5_list_objects (msg : String) (ps : List (List S3Object)) :
    list_objects (PaginateResult.clientError msg) = [] ∧
    list_objects (PaginateResult.pages ps) = ps.flatten :=
  ⟨rfl, list_objects_pages_eq_flatten ps⟩

/-- C6, counterexample: the spec scenario uses the URL
`https://cdn.example/x.dmg`, but every link-extraction pattern of
`parse_crabnebula_downloads` requires the literal host
`https://cdn.crabnebula.app/`, so the scenario body resolves to nothing at
all rather than to `cap-macos-arm64.dmg`. -/
theorem c6_counterexample :
    parse_crabnebula_downloads "[macOS (Apple Silicon)](https://cdn.example/x.dmg)" = [] ∧
    chosenStrategy [] "[macOS (Apple Silicon)](https://cdn.example/x.dmg)"
      = Strategy.noDownloads := by
  decide

/-- C6, amended: with a CrabNebula CDN URL the scenario holds: a release
without structured assets whose body contains
`[macOS (Apple Silicon)](https://cdn.crabnebula.app/x.dmg)` resolves to
the canonical filename `cap-macos-arm64.dmg` with content type
`application/octet-stream`. -/
theorem c6_unstructured_scenario :
    parse_crabnebula_downloads "[macOS (Apple Silicon)](https://cdn.crabnebula.app/x.dmg)"
      = [("macOS (Apple Silicon)", "https://cdn.crabnebula.app/x.dmg",
          "cap-macos-arm64.dmg", "application/octet-stream")] ∧
    chosenStrategy [] "[macOS (Apple Silicon)](https://cdn.crabnebula.app/x.dmg)"
      = Strategy.unstructured := by
  decide

/-- C2: when the structured asset list is non-empty the structured
strategy is chosen, the `crabnebula_downloads` variable stays empty, and
the choice and the variable are independent of the release body, whatever
it contains — the unstructured text is never parsed. -/
theorem c2_structured_precedence (github_assets : List GithubAsset)
    (body otherBody : String) (h : github_assets ≠ []) :
    chosenStrategy github_assets body = Strategy.structured ∧
    crabnebula_downloads_for github_assets body = [] ∧
    chosenStrategy github_assets otherBody = chosenStrategy github_assets body ∧
    crabnebula_downloads_for github_assets otherBody
      = crabnebula_downloads_for github_assets body := by
  have hne : github_assets.isEmpty = false := by
    cases github_assets with
    | nil => exact absurd rfl h
    | cons a l => rfl
  refine ⟨?_, ?_, ?_, ?_⟩ <;> simp [chosenStrategy, crabnebula_downloads_for, hne]

/-- C2, witness: a release with one structured asset and a body carrying a
perfectly valid CrabNebula link still uses the structured strategy, and
the body — which parses to a non-empty download list on its own — is
ignored. -/
theorem c2_structured_precedence_witness :
    ([⟨"Cap_x64-setup.exe", "https://example.com/a", 1⟩] : List GithubAsset) ≠ [] ∧
    parse_crabnebula_downloads
        "[macOS (Apple Silicon)](https://cdn.crabnebula.app/x.dmg)" ≠ [] ∧
    chosenStrategy [⟨"Cap_x64-setup.exe", "https://example.com/a", 1⟩]
        "[macOS (Apple Silicon)](https://cdn.crabnebula.app/x.dmg)" = Strategy.structured ∧
    crabnebula_downloads_for [⟨"Cap_x64-setup.exe", "https://example.com/a", 1⟩]
        "[macOS (Apple Silicon)](https://cdn.crabnebula.app/x.dmg)" = [] :=
  ⟨by decide, by decide,
    (c2_structured_precedence [⟨"Cap_x64-setup.exe", "https://example.com/a", 1⟩]
        "[macOS (Apple Silicon)](https://cdn.crabnebula.app/x.dmg)" "" (by decide)).1,
    (c2_structured_precedence [⟨"Cap_x64-setup.exe", "https://example.com/a", 1⟩]
        "[macOS (Apple Silicon)](https://cdn.crabnebula.app/x.dmg)" "" (by decide)).2.1⟩

/-- C7, counterexample: the address `http://remote-host` contains neither
`localhost` nor `127.0.0.1` nor `:9000`, so the claim requires a secure
transport, yet `bucket-manager.py` keeps the address verbatim and the
resulting endpoint URL is insecure `http`. -/
theorem c7_counterexample :
    hasLocalTrigger "http://remote-host" = false ∧
    urlScheme (bm_endpoint_url "http://remote-host") = "http" := by
  decide

/-- C7, amended: for every address that does not already start with
`http`, both client factories select the insecure `http` scheme exactly
when the address contains `localhost`, `127.0.0.1` or `:9000`, and the
secure `https` scheme otherwise (addresses already carrying a scheme are
kept verbatim by `bucket-manager.py`). -/
theorem c7_scheme_selection (e : String) (h : strStarts e "http" = false) :
    (urlScheme (bm_endpoint_url e) = "http" ↔ hasLocalTrigger e = true) ∧
    (urlScheme (bm_endpoint_url e) = "https" ↔ hasLocalTrigger e = false) ∧
    (urlScheme (sc_endpoint_url e) = "http" ↔ hasLocalTrigger e = true) ∧
    (urlScheme (sc_endpoint_url e) = "https" ↔ hasLocalTrigger e = false) := by
  have hbm : bm_endpoint_url e = protocolFor e ++ "://" ++ e := by
    simp [bm_endpoint_url, h]
  have hne1 : ("http" : String) ≠ "https" := by decide
  have hne2 : ("https" : String) ≠ "http" := by decide
  cases htrig : hasLocalTrigger e with
  | true =>
    have hp : protocolFor e = "http" := by simp [protocolFor, htrig]
    refine ⟨?_, ?_, ?_, ?_⟩ <;>
      simp [hbm, sc_endpoint_url, hp, urlScheme_proto_http e, hne1, hne2]
  | false =>
    have hp : protocolFor e = "https" := by simp [protocolFor, htrig]
    refine ⟨?_, ?_, ?_, ?_⟩ <;>
      simp [hbm, sc_endpoint_url, hp, urlScheme_proto_https e, hne1, hne2]

/-- C7, witness: applied to the remote address `minio.example.com`, which
carries no scheme and no local trigger. -/
theorem c7_scheme_selection_witness :
    strStarts "minio.example.com" "http" = false ∧
    ((urlScheme (bm_endpoint_url "minio.example.com") = "http"
        ↔ hasLocalTrigger "minio.example.com" = true) ∧
     (urlScheme (bm_endpoint_url "minio.example.com") = "https"
        ↔ hasLocalTrigger "minio.example.com" = false) ∧
     (urlScheme (sc_endpoint_url "minio.example.com") = "http"
        ↔ hasLocalTrigger "minio.example.com" = true) ∧
     (urlScheme (sc_endpoint_url "minio.example.com") = "https"
        ↔ hasLocalTrigger "minio.example.com" = false)) :=
  ⟨by decide, c7_scheme_selection "minio.example.com" (by decide)⟩

/-- C10: an address already starting with `http` (hence also `https`) is
used verbatim as the endpoint URL by `bucket-manager.py` and the inferred
scheme is discarded; in particular `http://remote-host` keeps its insecure
scheme although it has no local trigger. -/
theorem c10_verbatim_scheme (e : String) (h : strStarts e "http" = true) :
    bm_endpoint_url e = e ∧
    bm_endpoint_url "http://remote-host" = "http://remote-host" ∧
    hasLocalTrigger "http://remote-host" = false ∧
    urlScheme (bm_endpoint_url "http://remote-host") = "http" := by
  refine ⟨?_, by decide, by decide, by decide⟩
  simp [bm_endpoint_url, h]

/-- C10, witness: applied to the explicit address `http://remote-host`. -/
theorem c10_verbatim_scheme_witness :
    strStarts "http://remote-host" "http" = true ∧
    bm_endpoint_url "http://remote-host" = "http://remote-host" :=
  ⟨by decide, (c10_verbatim_scheme "http://remote-host" (by decide)).1⟩

/-- C9: after the transfer loop the pipeline issues a `put_object` of the
marker `version.txt` to the `clients` bucket whose body is exactly the
release tag followed by a newline; the write is wrapped in
`try ... except: pass`, so whatever the put does, `main` completes and the
reported rows and counters are unchanged. -/
theorem c9_version_marker (results : List (String × String × String)) (release_tag : String)
    (put put2 : VersionPut → PutOutcome) :
    (versionPutFor release_tag).key = "version.txt" ∧
    (versionPutFor release_tag).bucket = BUCKET_NAME ∧
    (versionPutFor release_tag).body = release_tag ++ "\n" ∧
    (finishSync results release_tag put).completed = true ∧
    (finishSync results release_tag put).rows = (finishSync results release_tag put2).rows ∧
    (finishSync results release_tag put).success_count
      = (finishSync results release_tag put2).success_count ∧
    (finishSync results release_tag put).total_count
      = (finishSync results release_tag put2).total_count :=
  ⟨rfl, rfl, rfl, rfl, rfl, rfl, rfl⟩

/-- C4: the copy loop attempts every record in listing order whatever the
per-object outcomes are, the counters add up to the number of records (a
failure is recorded, not fatal), and the exit status of `cmd_copy` is the
zero-failure result exactly when the failure count is zero. -/
theorem c4_copy_partial_failure (get : String → GetResult)
    (put : String → String → String → PutResult) (objects : List S3Object) :
    (cmd_copy_loop get put objects).attempted = objects.map S3Object.key ∧
    (cmd_copy_loop get put objects).success_count
        + (cmd_copy_loop get put objects).failed_count = objects.length ∧
    (cmd_copy_loop get put objects).failed_count
        = (objects.filter (fun o => !copy_object get put o.key)).length ∧
    (cmd_copy_result (cmd_copy_loop get put objects) = 0 ↔
      (cmd_copy_loop get put objects).failed_count = 0) := by
  have h := copy_foldl_spec get put objects ⟨0, 0, []⟩
  have hrun : cmd_copy_loop get put objects =
      { success_count := (objects.filter (fun o => copy_object get put o.key)).length,
        failed_count := (objects.filter (fun o => !copy_object get put o.key)).length,
        attempted := objects.map S3Object.key } := by
    unfold cmd_copy_loop
    rw [h]
    simp
  refine ⟨by rw [hrun], ?_, by rw [hrun], ?_⟩
  · rw [hrun]
    exact filter_length_split (fun o => copy_object get put o.key) objects
  · unfold cmd_copy_result
    by_cases hz : (cmd_copy_loop get put objects).failed_count = 0 <;> simp [hz]

/-- C1, counterexample: on a bucket with one object whose single
`delete_objects` batch fails, `cmd_delete` still issues the final
`delete_bucket` call, so bucket deletion is not gated on the objects being
confirmed removed. -/
theorem c1_counterexample :
    cmd_delete_events [⟨"k1", 10⟩] (fun _ => false) =
      [DeleteEvent.deleteObjectsCall ["k1"] false, DeleteEvent.deleteBucketCall] ∧
    DeleteEvent.deleteBucketCall ∈ cmd_delete_events [⟨"k1", 10⟩] (fun _ => false) := by
  decide

/-- C1, amended: `cmd_delete` lists all objects and issues
`delete_objects` batches of size at most 1000 that together cover all N
objects (for N = 2500: batches of 1000, 1000, 500); the issued request
sequence is independent of per-batch failures — the loop continues through
remaining batches — and the `delete_bucket` call is the last event, issued
after all object batches whether or not each succeeded. -/
theorem c1_batch_delete (objects : List S3Object) (batchOk batchOk2 : Nat → Bool) :
    (∀ b ∈ deleteBatches objects, b.length ≤ 1000) ∧
    (deleteBatches objects).flatten = objects ∧
    (deleteBatches (List.replicate 2500 (⟨"k", 0⟩ : S3Object))).map List.length
      = [1000, 1000, 500] ∧
    (cmd_delete_events objects batchOk).getLast? = some DeleteEvent.deleteBucketCall ∧
    (cmd_delete_events objects batchOk).map deleteEventKeys
      = (cmd_delete_events objects batchOk2).map deleteEventKeys := by
  refine ⟨deleteBatches_le_1000 objects, deleteBatches_flatten objects, ?_, ?_, ?_⟩
  · rw [deleteBatches_sizes]
    simp only [List.length_replicate]
    decide
  · unfold cmd_delete_events
    exact List.getLast?_concat _
  · unfold cmd_delete_events
    simp [deleteEventKeys, List.map_map, Function.comp]

/-- C1, witness: on a one-object bucket with a failing batch, the batch is
within the size limit and the bucket deletion is still the last event. -/
theorem c1_batch_delete_witness :
    ([⟨"k1", 10⟩] : List S3Object).length ≤ 1000 ∧
    (cmd_delete_events [⟨"k1", 10⟩] (fun _ => false)).getLast?
      = some DeleteEvent.deleteBucketCall :=
  ⟨(c1_batch_delete [⟨"k1", 10⟩] (fun _ => false) (fun _ => true)).1
      [⟨"k1", 10⟩] (by decide),
   (c1_batch_delete [⟨"k1", 10⟩] (fun _ => false) (fun _ => true)).2.2.2.1⟩

/-- Concrete asset whose name contains two patterns of
`GITHUB_ASSET_MAPPINGS` (`_x64-setup.exe` and `_x64_en-US.msi`). -/
def doubleMatchAsset : GithubAsset :=
  ⟨"Cap_x64-setup.exe_x64_en-US.msi", "https://example.com/a", 1⟩

/-- C3, counterexample: in the structured strategy the iteration is over
table entries, not assets, so an asset whose name matches two patterns is
resolved under both canonical filenames — it is not assigned only the
name of the earliest matching entry. -/
theorem c3_counterexample :
    strContains doubleMatchAsset.name "_x64-setup.exe" = true ∧
    strContains doubleMatchAsset.name "_x64_en-US.msi" = true ∧
    ((githubResolve [doubleMatchAsset]).filterMap
        (fun r => if r.2.2 = some doubleMatchAsset then some r.1 else none))
      = ["cap-windows-x64.exe", "cap-windows-x64.msi"] := by
  decide

/-- C3, amended: in the unstructured strategy a label matching a table
entry is resolved by `find?` to the earliest matching entry of
`CRABNEBULA_MAPPINGS`, so when a label matches several patterns the
earliest wins; in the structured strategy each table entry independently
selects the earliest asset (in release order) whose name contains its
pattern, so an asset matching several patterns is resolved once per
matching entry rather than only under the earliest. -/
theorem c3_first_match :
    (∀ (label : String) (i : Nat) (hi : i < CRABNEBULA_MAPPINGS.length),
        reSearch (CRABNEBULA_MAPPINGS.get ⟨i, hi⟩).1 label = true →
        ∃ k, ∃ hk : k < CRABNEBULA_MAPPINGS.length, k ≤ i ∧
          reSearch (CRABNEBULA_MAPPINGS.get ⟨k, hk⟩).1 label = true ∧
          CRABNEBULA_MAPPINGS.find? (fun m => reSearch m.1 label)
            = some (CRABNEBULA_MAPPINGS.get ⟨k, hk⟩)) ∧
    (∀ (assets : List GithubAsset) (pattern : String) (i : Nat) (hi : i < assets.length),
        strContains (assets.get ⟨i, hi⟩).name pattern = true →
        ∃ k, ∃ hk : k < assets.length, k ≤ i ∧
          strContains (assets.get ⟨k, hk⟩).name pattern = true ∧
          find_matching_asset assets pattern = some (assets.get ⟨k, hk⟩)) := by
  constructor
  · intro label i hi hmatch
    exact find?_min_index (fun m => reSearch m.1 label) CRABNEBULA_MAPPINGS i hi hmatch
  · intro assets pattern i hi hmatch
    exact find?_min_index (fun a => strContains a.name pattern) assets i hi hmatch

/-- C3, witness: the label `Windows` matches the third mapping entry, so
some entry at an index at most 2 is found; the asset whose name contains
`_x64_en-US.msi` is found by the structured lookup. -/
theorem c3_first_match_witness :
    (CRABNEBULA_MAPPINGS.find? (fun m => reSearch m.1 "Windows")).isSome = true ∧
    (find_matching_asset [doubleMatchAsset] "_x64_en-US.msi").isSome = true := by
  constructor
  · obtain ⟨k, hk, hki, hpk, hfind⟩ := c3_first_match.1 "Windows" 2 (by decide) (by decide)
    rw [hfind]
    rfl
  · obtain ⟨k, hk, hki, hpk, hfind⟩ :=
      c3_first_match.2 [doubleMatchAsset] "_x64_en-US.msi" 0 (by decide) (by decide)
    rw [hfind]
    rfl

/-- C8, counterexample: when the download of an asset fails, the loop
records the failure and continues without any `unlink` of the temporary
file of that asset — the file is only swept away with the whole temporary
directory at pipeline exit — so the per-file removal does not happen in
the download-failure case. -/
theorem c8_counterexample :
    pipelineEvents [("cap-macos-arm64.dmg", AssetOutcome.downloadFailed)] =
      [Ev.download "cap-macos-arm64.dmg" false, Ev.rmtreeTempDir] ∧
    Ev.unlink "cap-macos-arm64.dmg"
      ∉ pipelineEvents [("cap-macos-arm64.dmg", AssetOutcome.downloadFailed)] := by
  decide

/-- C8, amended: the temporary directory removal is the last event of
every pipeline run, including runs cut short by an unexpected upload
exception; and immediately after every upload attempt either the temporary
file of the asset is unlinked (success or caught upload failure) or the
pipeline exits removing the whole directory (unexpected exception). A
failed download skips the per-file unlink; the file is removed only with
the directory at exit. -/
theorem c8_cleanup (assets : List (String × AssetOutcome)) :
    (pipelineEvents assets).getLast? = some Ev.rmtreeTempDir ∧
    (∀ (k : Nat) (f : String),
        (pipelineEvents assets).get? k = some (Ev.upload f) →
        (pipelineEvents assets).get? (k + 1) = some (Ev.unlink f) ∨
        (pipelineEvents assets).get? (k + 1) = some Ev.rmtreeTempDir) := by
  constructor
  · unfold pipelineEvents
    exact List.getLast?_concat _
  · intro k f h
    unfold pipelineEvents at h ⊢
    have hk : k < (transferLoop assets).length := by
      by_contra hge
      push_neg at hge
      rcases Nat.lt_or_ge k ((transferLoop assets).length + 1) with hlt | hge2
      · have hkeq : k = (transferLoop assets).length := by omega
        rw [hkeq, List.get?_append_right (Nat.le_refl _)] at h
        simp at h
      · rw [List.get?_append_right (by simpa using Nat.le_trans (Nat.le_succ _) hge2)] at h
        rw [List.get?_eq_none.mpr (by simp; omega)] at h
        exact Option.noConfusion h
    rw [List.get?_append hk] at h
    rcases transferLoop_upload_next assets k f h with hnext | hnone
    · left
      have hk1 : k + 1 < (transferLoop assets).length := by
        by_contra hge
        push_neg at hge
        rw [List.get?_eq_none.mpr hge] at hnext
        exact Option.noConfusion hnext
      rw [List.get?_append hk1]
      exact hnext
    · right
      have hlen : (transferLoop assets).length ≤ k + 1 := by
        by_contra hge
        push_neg at hge
        rw [List.get?_eq_some.mpr ⟨hge, rfl⟩] at hnone
        exact Option.noConfusion hnone
      have hkeq : k + 1 = (transferLoop assets).length := by omega
      rw [hkeq, List.get?_append_right (Nat.le_refl _)]
      simp

/-- C8, witness: on a run with one asset whose upload fails with a caught
`ClientError`, the directory removal is last and the upload at index 1 is
immediately followed by the unlink or by the exit sweep. -/
theorem c8_cleanup_witness :
    (pipelineEvents [("f.exe", AssetOutcome.uploadFailed)]).getLast?
      = some Ev.rmtreeTempDir ∧
    ((pipelineEvents [("f.exe", AssetOutcome.uploadFailed)]).get? 2
        = some (Ev.unlink "f.exe") ∨
     (pipelineEvents [("f.exe", AssetOutcome.uploadFailed)]).get? 2
        = some Ev.rmtreeTempDir) :=
  ⟨(c8_cleanup [("f.exe", AssetOutcome.uploadFailed)]).1,
   (c8_cleanup [("f.exe", AssetOutcome.uploadFailed)]).2 1 "f.exe" (by decide)⟩
